import Mathlib

/-!
Shallow embedding of sslyze/plugins/certificate_info_plugin.py.

The file models the data classes (PathValidationResult, PathValidationError,
CertificateInfoResult), the orchestrator CertificateInfoPlugin.process_task,
the per-store handshake task _get_and_verify_certificate_chain, and the
EV-attribution fragments of as_text and as_xml.  External collaborators
(the nassl TLS library, the trust-store catalog, the TrustStore methods
build_verified_certificate_chain / is_extended_validation, OcspResponse.verify)
are modelled as parameters gathered in an Env record; Python exceptions become
Except values.
-/

/-- A parsed certificate as exposed by sslyze.plugins.utils.certificate.Certificate:
the fields the plugin reads (printable subject and issuer names, the
signatureAlgorithm entry of as_dict, a fingerprint, a serial number).
Python equality between Certificate objects is modelled as structural equality. -/
structure Certificate where
  printable_subject_name : String
  printable_issuer_name : String
  serialNumber : String
  signatureAlgorithm : String
  sha1_fingerprint : String
deriving DecidableEq, Repr

/-- A trust store, constructed as TrustStore(path, name, version) in the source
(see the Custom --ca_file store built in process_task).  Python equality on the
trust-store objects is modelled as structural equality. -/
structure TrustStore where
  path : String
  name : String
  version : String
deriving DecidableEq, Repr

/-- A nassl OcspResponse; the plugin only keeps its as_dict() form. -/
structure OcspResponse where
  as_dict : List (String × String)
deriving DecidableEq, Repr

/-- A nassl._nassl.OpenSSLError raised by OcspResponse.verify. -/
structure OpenSSLError where
  msg : String
deriving DecidableEq, Repr

/-- A generic Python exception captured by the thread pool: its class name and
its str() message. -/
structure PyExc where
  className : String
  msg : String
deriving DecidableEq, Repr

/-- PathValidationResult: the result of validating the chain with one trust
store (certificate_info_plugin.py lines 27-37). -/
structure PathValidationResult where
  trust_store : TrustStore
  verify_string : String
  is_certificate_trusted : Bool
deriving DecidableEq, Repr

/-- PathValidationResult.__init__: stores the trust store and the verify string
and derives is_certificate_trusted as: True if verify_string == 'ok' else False. -/
def PathValidationResult.make (trust_store : TrustStore) (verify_string : String) :
    PathValidationResult :=
  { trust_store := trust_store
    verify_string := verify_string
    is_certificate_trusted := if verify_string = "ok" then true else false }

/-- PathValidationError: an exception was raised while validating with one
trust store (certificate_info_plugin.py lines 40-48). -/
structure PathValidationError where
  trust_store : TrustStore
  error_message : String
deriving DecidableEq, Repr

/-- PathValidationError.__init__: keeps the store and formats the exception as
the string given by the Python format {class name} - {message}. -/
def PathValidationError.make (trust_store : TrustStore) (exception : PyExc) :
    PathValidationError :=
  { trust_store := trust_store
    error_message := exception.className ++ " - " ++ exception.msg }

/-- Whether the character list starting here begins with the pattern. -/
def charsLead : List Char → List Char → Bool
  | [], _ => true
  | _ :: _, [] => false
  | p :: ps, c :: cs => p == c && charsLead ps cs

/-- Whether the pattern occurs as a contiguous run inside the character list. -/
def charsContains (pat : List Char) : List Char → Bool
  | [] => pat.isEmpty
  | c :: cs => charsLead pat (c :: cs) || charsContains pat cs

/-- The Python substring test pat in s on strings. -/
def strContains (s pat : String) : Bool :=
  charsContains pat.data s.data

/-- The outcome of the call main_trust_store.build_verified_certificate_chain(...)
as seen by its caller in CertificateInfoResult.__init__: a returned chain, or
one of the two caught exception kinds (InvalidCertificateChainOrderError,
AnchorCertificateNotInTrustStoreError). -/
inductive ChainBuildOutcome where
  | ok (chain : List Certificate)
  | invalidOrder
  | anchorNotFound
deriving DecidableEq, Repr

/-- A Python exception escaping CertificateInfoResult.__init__. -/
inductive PyErr where
  | attributeError
  | openSSLError (e : OpenSSLError)
  | indexError
deriving DecidableEq, Repr

/-- The external collaborators CertificateInfoResult.__init__ touches: the
primary (Mozilla) trust store returned by TrustStoresRepository.get_main(), its
build_verified_certificate_chain and is_extended_validation methods, the
OcspResponse.verify method, Certificate.matches_hostname, and the SNI value of
the server_info. -/
structure Env where
  main_trust_store : TrustStore
  build_verified_certificate_chain : List Certificate → ChainBuildOutcome
  is_extended_validation : Certificate → Bool
  ocsp_verify : OcspResponse → String → Except OpenSSLError Bool
  matches_hostname : Certificate → String → Nat
  tls_server_name_indication : String

/-- The attributes of a constructed CertificateInfoResult that the plugin
derives (certificate_info_plugin.py lines 203-261). -/
structure CertificateInfoResult where
  ocsp_response : Option (List (String × String))
  is_ocsp_response_trusted : Bool
  certificate_chain : List Certificate
  is_leaf_certificate_ev : Bool
  verified_certificate_chain : List Certificate
  is_certificate_chain_order_valid : Bool
  has_anchor_in_certificate_chain : Option Bool
  path_validation_result_list : List PathValidationResult
  path_validation_error_list : List PathValidationError
  hostname_validation_result : Nat
  has_sha1_in_certificate_chain : Option Bool
deriving DecidableEq, Repr

/-- Lines 236-239 of the source: scan path_validation_result_list for entries
whose trust store equals the main store, keeping the last such entry's
is_certificate_trusted flag; the flag defaults to False when no entry matches. -/
def isChainTrustedByMainStore (main_trust_store : TrustStore)
    (path_validation_result_list : List PathValidationResult) : Bool :=
  path_validation_result_list.foldl
    (fun acc path_result =>
      if path_result.trust_store = main_trust_store then path_result.is_certificate_trusted
      else acc)
    false

/-- The record built on the non-raising path of CertificateInfoResult.__init__
(lines 222-261): chain conversion, EV flag of the leaf, the try/except around
build_verified_certificate_chain, the main-store reconciliation that empties
the verified chain when the main store verdict is untrusted, the anchor flag,
the hostname verdict, and the SHA-1 flag over the verified chain minus its
last element. -/
def resultRecord (env : Env) (leaf : Certificate) (rest : List Certificate)
    (path_validation_result_list : List PathValidationResult)
    (path_validation_error_list : List PathValidationError)
    (ocsp_response : OcspResponse) (is_ocsp_response_trusted : Bool) :
    CertificateInfoResult :=
  let certificate_chain := leaf :: rest
  let buildOutcome := env.build_verified_certificate_chain certificate_chain
  let builtChain := match buildOutcome with
    | ChainBuildOutcome.ok c => c
    | ChainBuildOutcome.invalidOrder => []
    | ChainBuildOutcome.anchorNotFound => []
  let is_certificate_chain_order_valid := match buildOutcome with
    | ChainBuildOutcome.invalidOrder => false
    | _ => true
  let is_chain_trusted_by_main_store :=
    isChainTrustedByMainStore env.main_trust_store path_validation_result_list
  let verified_certificate_chain :=
    if is_chain_trusted_by_main_store then builtChain else []
  { ocsp_response := some ocsp_response.as_dict
    is_ocsp_response_trusted := is_ocsp_response_trusted
    certificate_chain := certificate_chain
    is_leaf_certificate_ev := env.is_extended_validation leaf
    verified_certificate_chain := verified_certificate_chain
    is_certificate_chain_order_valid := is_certificate_chain_order_valid
    has_anchor_in_certificate_chain :=
      verified_certificate_chain.getLast?.map (fun a => decide (a ∈ certificate_chain))
    path_validation_result_list := path_validation_result_list
    path_validation_error_list := path_validation_error_list
    hostname_validation_result := env.matches_hostname leaf env.tls_server_name_indication
    has_sha1_in_certificate_chain :=
      if verified_certificate_chain.isEmpty then none
      else some (verified_certificate_chain.dropLast.any
        (fun cert => strContains cert.signatureAlgorithm "sha1")) }

/-- CertificateInfoResult.__init__ (lines 203-261) with its raising paths made
explicit.  Line 217 keeps the staple dict.  Line 218 is the statement
print ocsp_response.verify(main_trust_store.path): it dereferences
ocsp_response unconditionally, so a missing staple raises AttributeError, and
an OpenSSLError raised by verify propagates.  Line 219 runs verify again for
the stored flag.  Line 223 indexes certificate_chain[0], raising IndexError on
an empty chain.  The success path yields resultRecord. -/
def mkCertificateInfoResult (env : Env) (certificate_chain : List Certificate)
    (path_validation_result_list : List PathValidationResult)
    (path_validation_error_list : List PathValidationError)
    (ocsp_response : Option OcspResponse) : Except PyErr CertificateInfoResult :=
  match ocsp_response with
  | none => Except.error PyErr.attributeError
  | some r =>
    match env.ocsp_verify r env.main_trust_store.path with
    | Except.error e => Except.error (PyErr.openSSLError e)
    | Except.ok _ =>
      match env.ocsp_verify r env.main_trust_store.path with
      | Except.error e => Except.error (PyErr.openSSLError e)
      | Except.ok is_ocsp_response_trusted =>
        match certificate_chain with
        | [] => Except.error PyErr.indexError
        | leaf :: rest =>
          Except.ok (resultRecord env leaf rest path_validation_result_list
            path_validation_error_list r is_ocsp_response_trusted)

/-- What one per-store handshake task hands back to the orchestrator: the
triple returned by _get_and_verify_certificate_chain, or the exception the
thread pool captured. -/
inductive HandshakeOutcome where
  | success (chain : List Certificate) (verify_str : String) (ocsp : Option OcspResponse)
  | failure (exc : PyExc)

/-- An exception escaping CertificateInfoPlugin.process_task: the RuntimeError
of line 141 or an exception from the CertificateInfoResult construction. -/
inductive ScanError where
  | runtimeError (msg : String)
  | initError (e : PyErr)
deriving DecidableEq, Repr

/-- Python str() of the optional last exception interpolated into the
RuntimeError message of line 141. -/
def pyStrOfOptExc : Option PyExc → String
  | none => "None"
  | some e => e.msg

/-- CertificateInfoPlugin.process_task (lines 104-145): one handshake job per
trust store; successful jobs each append a PathValidationResult and overwrite
certificate_chain and ocsp_response (so the last success wins); failed jobs
each append a PathValidationError and update last_exception; if the error list
is as long as the store list, a RuntimeError carrying the last error is
raised; otherwise the CertificateInfoResult is constructed.  Arrival order is
modelled as the job submission order. -/
def process_task (env : Env) (final_trust_store_list : List TrustStore)
    (handshake : TrustStore → HandshakeOutcome) :
    Except ScanError CertificateInfoResult :=
  let outcomes := final_trust_store_list.map (fun ts => (ts, handshake ts))
  let successes := outcomes.filterMap (fun job =>
    match job.2 with
    | HandshakeOutcome.success chain verify_str ocsp => some (job.1, chain, verify_str, ocsp)
    | HandshakeOutcome.failure _ => none)
  let certificate_chain := (successes.map (fun s => s.2.1)).getLast?.getD []
  let ocsp_response := (successes.map (fun s => s.2.2.2)).getLast?.getD none
  let path_validation_result_list :=
    successes.map (fun s => PathValidationResult.make s.1 s.2.2.1)
  let failures := outcomes.filterMap (fun job =>
    match job.2 with
    | HandshakeOutcome.failure exc => some (job.1, exc)
    | HandshakeOutcome.success _ _ _ => none)
  let path_validation_error_list := failures.map (fun f => PathValidationError.make f.1 f.2)
  let last_exception := (failures.map (fun f => f.2)).getLast?
  if path_validation_error_list.length = final_trust_store_list.length then
    Except.error (ScanError.runtimeError
      ("Could not connect to the server; last error: " ++ pyStrOfOptExc last_exception))
  else
    match mkCertificateInfoResult env certificate_chain path_validation_result_list
        path_validation_error_list ocsp_response with
    | Except.ok res => Except.ok res
    | Except.error e => Except.error (ScanError.initError e)

/-- The per-store trust line of as_text (lines 295-309): a trusted store gets
the OK text, with the Extended Validation suffix only when the leaf is EV and
TrustStoresRepository.get_main() equals the entry's trust store; an untrusted
store gets the FAILED text carrying the verify string. -/
def pathEntryText (is_leaf_certificate_ev : Bool) (main_trust_store : TrustStore)
    (path_result : PathValidationResult) : String :=
  if path_result.is_certificate_trusted then
    let ev_txt :=
      if is_leaf_certificate_ev ∧ main_trust_store = path_result.trust_store then
        ", Extended Validation"
      else ""
    "OK - Certificate is trusted" ++ ev_txt
  else
    "FAILED - Certificate is NOT Trusted: " ++ path_result.verify_string

/-- Python str() of a bool, as interpolated by as_xml. -/
def pyStrBool : Bool → String
  | true => "True"
  | false => "False"

/-- The attributes of one pathValidation element of as_xml (lines 430-442):
store name, store version, the verify string, and — only inside the branch
guarded by the substring test Mozilla in the store name — the
isExtendedValidationCertificate attribute, set when the leaf is EV. -/
structure XmlPathAttrs where
  usingTrustStore : String
  trustStoreVersion : String
  validationResult : String
  isExtendedValidationCertificate : Option String
deriving DecidableEq, Repr

/-- Builds the attribute set of one pathValidation element as as_xml does
(lines 430-442). -/
def xmlPathValidationAttrs (is_leaf_certificate_ev : Bool)
    (path_result : PathValidationResult) : XmlPathAttrs :=
  { usingTrustStore := path_result.trust_store.name
    trustStoreVersion := path_result.trust_store.version
    validationResult := path_result.verify_string
    isExtendedValidationCertificate :=
      if strContains path_result.trust_store.name "Mozilla" then
        if is_leaf_certificate_ev then some (pyStrBool is_leaf_certificate_ev) else none
      else none }

/-- Whether consecutive elements of the list link issuer-to-subject
(each next certificate's subject is the current certificate's issuer). -/
def chainLinked : List Certificate → Bool
  | [] => true
  | [_] => true
  | a :: b :: rest =>
    decide (b.printable_subject_name = a.printable_issuer_name) && chainLinked (b :: rest)

/-- The anchor certificate, if any, whose subject matches the issuer of the
given certificate. -/
def anchorFor (anchors : List Certificate) (c : Certificate) : Option Certificate :=
  anchors.find? (fun a => decide (a.printable_subject_name = c.printable_issuer_name))

/-- If the sequence already links leaf to root and its last element chains up
to an anchor, the full chain with the anchor appended; none otherwise. -/
def linkedToAnchor (anchors : List Certificate) (chain : List Certificate) :
    Option (List Certificate) :=
  if chainLinked chain then
    match chain.getLast? with
    | some last => (anchorFor anchors last).map (fun a => chain ++ [a])
    | none => none
  else none

/-- All ways of inserting an element into a list. -/
def insertEverywhere (a : Certificate) : List Certificate → List (List Certificate)
  | [] => [[a]]
  | b :: l => (a :: b :: l) :: (insertEverywhere a l).map (fun t => b :: t)

/-- All reorderings of a list of certificates. -/
def permsOf : List Certificate → List (List Certificate)
  | [] => [[]]
  | a :: l => (permsOf l).flatMap (insertEverywhere a)

/-- Modelled from the spec: TrustStore.build_verified_certificate_chain, whose
implementation lives outside this file (sslyze.plugins.utils.trust_store).
Per the spec, the builder walks issuer links from the leaf, appending the
anchor for the final hop; it signals an invalid-order fault when a matching
issuer exists in the received set but the received sequence does not already
satisfy the leaf-to-root linkage (some reordering of the received set does),
and an anchor-not-found fault when no issuer path into the anchor set exists. -/
def spec_build_verified_certificate_chain (anchors : List Certificate)
    (received : List Certificate) : ChainBuildOutcome :=
  match linkedToAnchor anchors received with
  | some full => ChainBuildOutcome.ok full
  | none =>
    if (permsOf received).any (fun p => (linkedToAnchor anchors p).isSome) then
      ChainBuildOutcome.invalidOrder
    else ChainBuildOutcome.anchorNotFound

/-- How the handshake attempt of one connection ends: it completes, the server
asks for a client certificate (nassl raises ClientCertificateRequested), or
some other exception is raised. -/
inductive ConnectEvent where
  | connected
  | clientCertificateRequested
  | otherError (e : PyExc)
deriving DecidableEq, Repr

/-- An exception raised inside _get_and_verify_certificate_chain: the nassl
ClientCertificateRequested signal or any other exception. -/
inductive SslExc where
  | clientCertificateRequested
  | other (e : PyExc)
deriving DecidableEq, Repr

/-- One preconfigured SSL connection: how its connect() call ends and the
values its getters return afterwards (per the nassl contract, the peer chain,
verify result and OCSP staple stay retrievable after the client-certificate
signal). -/
structure SslConnection where
  connectEvent : ConnectEvent
  peer_cert_chain : List Certificate
  verify_result : String
  ocsp_resp : Option OcspResponse
deriving DecidableEq, Repr

/-- The resource state of one connection. -/
structure ConnectionState where
  is_open : Bool
deriving DecidableEq, Repr

/-- The state of the connection once get_preconfigured_ssl_connection returned. -/
def openConnection : ConnectionState :=
  { is_open := true }

/-- ssl_connection.close(). -/
def ConnectionState.close (_s : ConnectionState) : ConnectionState :=
  { is_open := false }

/-- ssl_connection.connect(): returns unit, or raises per the connect event. -/
def sslConnect (conn : SslConnection) : Except SslExc Unit :=
  match conn.connectEvent with
  | ConnectEvent.connected => Except.ok ()
  | ConnectEvent.clientCertificateRequested => Except.error SslExc.clientCertificateRequested
  | ConnectEvent.otherError e => Except.error (SslExc.other e)

/-- CertificateInfoPlugin._get_and_verify_certificate_chain (lines 148-175):
the try block connects and reads the staple, the peer chain and the verify
string; the except ClientCertificateRequested handler reads the same three
values; any other exception propagates; the finally clause closes the
connection on every path.  The returned pair is the Python return value (or
the escaping exception) together with the final connection state. -/
def get_and_verify_certificate_chain (conn : SslConnection) :
    Except SslExc (List Certificate × String × Option OcspResponse) × ConnectionState :=
  let s0 := openConnection
  let tryResult : Except SslExc (List Certificate × String × Option OcspResponse) :=
    match sslConnect conn with
    | Except.error e => Except.error e
    | Except.ok _ => Except.ok (conn.peer_cert_chain, conn.verify_result, conn.ocsp_resp)
  let afterHandlers : Except SslExc (List Certificate × String × Option OcspResponse) :=
    match tryResult with
    | Except.error SslExc.clientCertificateRequested =>
      Except.ok (conn.peer_cert_chain, conn.verify_result, conn.ocsp_resp)
    | r => r
  (afterHandlers, s0.close)

/-- The verified chain CertificateInfoResult.__init__ ends up storing: the
chain returned by the builder when the main store verdict is trusted, the
empty list on a builder fault or an untrusted main-store verdict
(lines 226-243 combined). -/
def verifiedChainOf (env : Env) (chain : List Certificate)
    (prl : List PathValidationResult) : List Certificate :=
  if isChainTrustedByMainStore env.main_trust_store prl then
    match env.build_verified_certificate_chain chain with
    | ChainBuildOutcome.ok c => c
    | ChainBuildOutcome.invalidOrder => []
    | ChainBuildOutcome.anchorNotFound => []
  else []

/-- Concrete leaf certificate for evaluations. -/
def leafC : Certificate :=
  { printable_subject_name := "leaf.example.com"
    printable_issuer_name := "Example Intermediate CA"
    serialNumber := "01"
    signatureAlgorithm := "sha256WithRSAEncryption"
    sha1_fingerprint := "aa11" }

/-- Concrete intermediate certificate. -/
def interC : Certificate :=
  { printable_subject_name := "Example Intermediate CA"
    printable_issuer_name := "Example Root CA"
    serialNumber := "02"
    signatureAlgorithm := "sha256WithRSAEncryption"
    sha1_fingerprint := "bb22" }

/-- Concrete root certificate; its self-signature uses SHA-1, as legacy roots
commonly do. -/
def rootC : Certificate :=
  { printable_subject_name := "Example Root CA"
    printable_issuer_name := "Example Root CA"
    serialNumber := "03"
    signatureAlgorithm := "sha1WithRSAEncryption"
    sha1_fingerprint := "cc33" }

/-- The primary (Mozilla) trust store. -/
def mozMain : TrustStore :=
  { path := "mozilla.pem", name := "Mozilla NSS", version := "9.2016" }

/-- A supplementary store whose name also contains the word Mozilla. -/
def mozClone : TrustStore :=
  { path := "clone.pem", name := "Mozilla Clone", version := "1.0" }

/-- A supplementary store. -/
def storeA : TrustStore :=
  { path := "aosp.pem", name := "AOSP", version := "7.0" }

/-- Another supplementary store. -/
def storeB : TrustStore :=
  { path := "microsoft.pem", name := "Microsoft", version := "2016" }

/-- A handshake exception. -/
def excA : PyExc :=
  { className := "timeout", msg := "timed out" }

/-- Another handshake exception. -/
def excB : PyExc :=
  { className := "ConnectionResetError", msg := "connection reset by peer" }

/-- A captured OCSP staple. -/
def ocspR : OcspResponse :=
  { as_dict := [("responseStatus", "successful"), ("responderID", "CN=Example OCSP")] }

/-- Environment whose builder is the spec-modelled one over the anchor rootC. -/
def envSpec : Env :=
  { main_trust_store := mozMain
    build_verified_certificate_chain := spec_build_verified_certificate_chain [rootC]
    is_extended_validation := fun _ => false
    ocsp_verify := fun _ _ => Except.ok true
    matches_hostname := fun _ _ => 1
    tls_server_name_indication := "leaf.example.com" }

/-- Environment whose builder reconstructs a full leaf-to-anchor chain. -/
def env1 : Env :=
  { envSpec with
    build_verified_certificate_chain := fun _ => ChainBuildOutcome.ok [leafC, interC, rootC] }

/-- Environment whose OcspResponse.verify raises the trust-verification kind of
OpenSSLError. -/
def env2vfail : Env :=
  { envSpec with ocsp_verify := fun _ _ => Except.error { msg := "certificate verify error" } }

/-- A path-validation list whose only entry is a trusted main-store verdict. -/
def prlOk : List PathValidationResult :=
  [PathValidationResult.make mozMain "ok"]

/-- A path-validation list whose only entry is an untrusted main-store verdict. -/
def prlExpired : List PathValidationResult :=
  [PathValidationResult.make mozMain "certificate has expired"]

/-- The result record of a scan whose main-store verdict is untrusted while the
builder reconstructed a full chain (input chain leafC, interC). -/
def res1 : CertificateInfoResult :=
  resultRecord env1 leafC [interC] prlExpired [] ocspR true

/-- The result record of the swapped-order scan against envSpec. -/
def res3 : CertificateInfoResult :=
  resultRecord envSpec interC [leafC] prlOk [] ocspR true

/-- The result record of a trusted scan whose verified chain carries SHA-1 only
on its anchor. -/
def res5 : CertificateInfoResult :=
  resultRecord env1 leafC [interC] prlOk [] ocspR true

/-- The result record of a trusted scan whose received chain includes the
anchor. -/
def res6 : CertificateInfoResult :=
  resultRecord env1 leafC [interC, rootC] prlOk [] ocspR true

/-- The result record of a scan whose path-validation list has no main-store
entry at all. -/
def res10 : CertificateInfoResult :=
  resultRecord env1 leafC [] [PathValidationResult.make storeA "ok"] [] ocspR true

/-- Handshake behavior where every store's connection attempt fails. -/
def handshakeAllFail : TrustStore → HandshakeOutcome :=
  fun ts => HandshakeOutcome.failure (if ts = storeA then excA else excB)

/-- Handshake behavior where exactly one store succeeds but the server sends
no OCSP staple. -/
def handshakeOneSuccessNoStaple : TrustStore → HandshakeOutcome :=
  fun ts =>
    if ts = storeB then HandshakeOutcome.success [leafC, interC] "ok" none
    else HandshakeOutcome.failure excA

theorem foldl_trusted_eq_false (main : TrustStore) (l : List PathValidationResult)
    (acc : Bool) (hacc : acc = false)
    (h : ∀ p ∈ l, p.trust_store = main → p.is_certificate_trusted = false) :
    l.foldl (fun a p => if p.trust_store = main then p.is_certificate_trusted else a) acc
      = false := by
  induction l generalizing acc with
  | nil => simpa using hacc
  | cons q tl ih =>
    simp only [List.foldl_cons]
    apply ih
    · by_cases hq : q.trust_store = main
      · simpa [hq] using h q (List.mem_cons_self q tl) hq
      · simpa [hq] using hacc
    · intro p hp hpm
      exact h p (List.mem_cons_of_mem q hp) hpm

theorem isChainTrusted_false (main : TrustStore) (l : List PathValidationResult)
    (h : ∀ p ∈ l, p.trust_store = main → p.is_certificate_trusted = false) :
    isChainTrustedByMainStore main l = false :=
  foldl_trusted_eq_false main l false rfl h

theorem mk_ok_inv (env : Env) (chain : List Certificate)
    (prl : List PathValidationResult) (pel : List PathValidationError)
    (ocsp : Option OcspResponse) (res : CertificateInfoResult)
    (h : mkCertificateInfoResult env chain prl pel ocsp = Except.ok res) :
    ∃ r b leaf rest, ocsp = some r ∧ chain = leaf :: rest ∧
      res = resultRecord env leaf rest prl pel r b := by
  cases ocsp with
  | none => simp [mkCertificateInfoResult] at h
  | some r =>
    cases hv : env.ocsp_verify r env.main_trust_store.path with
    | error e => simp [mkCertificateInfoResult, hv] at h
    | ok b =>
      cases chain with
      | nil => simp [mkCertificateInfoResult, hv] at h
      | cons leaf rest =>
        refine ⟨r, b, leaf, rest, rfl, rfl, ?_⟩
        simp only [mkCertificateInfoResult, hv] at h
        exact (Except.ok.inj h).symm

theorem resultRecord_verified (env : Env) (leaf : Certificate) (rest : List Certificate)
    (prl : List PathValidationResult) (pel : List PathValidationError)
    (r : OcspResponse) (b : Bool) :
    (resultRecord env leaf rest prl pel r b).verified_certificate_chain =
      verifiedChainOf env (leaf :: rest) prl := rfl

theorem resultRecord_chain (env : Env) (leaf : Certificate) (rest : List Certificate)
    (prl : List PathValidationResult) (pel : List PathValidationError)
    (r : OcspResponse) (b : Bool) :
    (resultRecord env leaf rest prl pel r b).certificate_chain = leaf :: rest := rfl

theorem resultRecord_order (env : Env) (leaf : Certificate) (rest : List Certificate)
    (prl : List PathValidationResult) (pel : List PathValidationError)
    (r : OcspResponse) (b : Bool) :
    (resultRecord env leaf rest prl pel r b).is_certificate_chain_order_valid =
      (match env.build_verified_certificate_chain (leaf :: rest) with
       | ChainBuildOutcome.invalidOrder => false
       | _ => true) := rfl

theorem resultRecord_anchor (env : Env) (leaf : Certificate) (rest : List Certificate)
    (prl : List PathValidationResult) (pel : List PathValidationError)
    (r : OcspResponse) (b : Bool) :
    (resultRecord env leaf rest prl pel r b).has_anchor_in_certificate_chain =
      (verifiedChainOf env (leaf :: rest) prl).getLast?.map
        (fun a => decide (a ∈ leaf :: rest)) := rfl

theorem resultRecord_sha1 (env : Env) (leaf : Certificate) (rest : List Certificate)
    (prl : List PathValidationResult) (pel : List PathValidationError)
    (r : OcspResponse) (b : Bool) :
    (resultRecord env leaf rest prl pel r b).has_sha1_in_certificate_chain =
      (if (verifiedChainOf env (leaf :: rest) prl).isEmpty then none
       else some ((verifiedChainOf env (leaf :: rest) prl).dropLast.any
         (fun cert => strContains cert.signatureAlgorithm "sha1"))) := rfl

/-- C1: for every scan result construction that completes, if every
path-validation entry for the primary (main) trust store carries a verify
string other than the success string ok (in particular when no primary-store
entry exists at all), the verified certificate chain of the constructed result
is empty, whatever chain the builder reconstructed by graph linkage. -/
theorem main_untrusted_empty_verified_chain
    (env : Env) (chain : List Certificate)
    (entries : List (TrustStore × String)) (pel : List PathValidationError)
    (ocsp : Option OcspResponse) (res : CertificateInfoResult)
    (hok : mkCertificateInfoResult env chain
      (entries.map (fun e => PathValidationResult.make e.1 e.2)) pel ocsp = Except.ok res)
    (hmain : ∀ e ∈ entries, e.1 = env.main_trust_store → e.2 ≠ "ok") :
    res.verified_certificate_chain = [] := by
  obtain ⟨r, b, leaf, rest, -, -, hres⟩ := mk_ok_inv _ _ _ _ _ _ hok
  subst hres
  rw [resultRecord_verified]
  have hfalse : isChainTrustedByMainStore env.main_trust_store
      (entries.map (fun e => PathValidationResult.make e.1 e.2)) = false := by
    apply isChainTrusted_false
    intro p hp hpm
    simp only [List.mem_map] at hp
    obtain ⟨e, he, rfl⟩ := hp
    have hne := hmain e he (by simpa [PathValidationResult.make] using hpm)
    simp [PathValidationResult.make, hne]
  simp [verifiedChainOf, hfalse]

/-- C1 witness: a scan whose builder reconstructed the full chain but whose
main-store verify string is an expiry failure ends with an empty verified
chain. -/
theorem main_untrusted_empty_verified_chain_witness :
    res1.verified_certificate_chain = [] :=
  main_untrusted_empty_verified_chain env1 [leafC, interC]
    [(mozMain, "certificate has expired")] [] (some ocspR) res1 rfl (by decide)

/-- C10: for every scan result construction that completes, if no
path-validation entry belongs to the primary (main) trust store — for example
because the primary-store handshake ended in an error — the verified chain of
the constructed result is empty, regardless of the builder outcome, since the
main-store trust flag defaults to untrusted when the identity lookup finds no
entry. -/
theorem no_main_entry_empty_verified_chain
    (env : Env) (chain : List Certificate) (prl : List PathValidationResult)
    (pel : List PathValidationError) (ocsp : Option OcspResponse)
    (res : CertificateInfoResult)
    (hok : mkCertificateInfoResult env chain prl pel ocsp = Except.ok res)
    (hnone : ∀ p ∈ prl, p.trust_store ≠ env.main_trust_store) :
    res.verified_certificate_chain = [] := by
  obtain ⟨r, b, leaf, rest, -, -, hres⟩ := mk_ok_inv _ _ _ _ _ _ hok
  subst hres
  rw [resultRecord_verified]
  have hfalse : isChainTrustedByMainStore env.main_trust_store prl = false := by
    apply isChainTrusted_false
    intro p hp hpm
    exact absurd hpm (hnone p hp)
  simp [verifiedChainOf, hfalse]

/-- C10 witness: a scan whose only path-validation entry belongs to a
supplementary store, while the builder reconstructed a full chain, ends with
an empty verified chain. -/
theorem no_main_entry_empty_verified_chain_witness :
    res10.verified_certificate_chain = [] :=
  no_main_entry_empty_verified_chain env1 [leafC]
    [PathValidationResult.make storeA "ok"] [] (some ocspR) res10 rfl (by decide)

/-- C8: the trusted flag of a per-store validation outcome is true exactly when
the library verify string equals the single literal success string ok. -/
theorem trusted_iff_verify_string_ok (trust_store : TrustStore) (verify_string : String) :
    (PathValidationResult.make trust_store verify_string).is_certificate_trusted = true ↔
      verify_string = "ok" := by
  unfold PathValidationResult.make
  by_cases h : verify_string = "ok" <;> simp [h]

/-- C5: for every scan result construction that completes, the SHA-1 flag is
null when the verified chain is empty, and otherwise is true exactly when some
certificate of the verified chain excluding its last (anchor) element carries
sha1 in its signature algorithm — so a chain whose only SHA-1 certificate is
the anchor reports false. -/
theorem sha1_flag_excludes_anchor
    (env : Env) (chain : List Certificate) (prl : List PathValidationResult)
    (pel : List PathValidationError) (ocsp : Option OcspResponse)
    (res : CertificateInfoResult)
    (hok : mkCertificateInfoResult env chain prl pel ocsp = Except.ok res) :
    (res.verified_certificate_chain = [] → res.has_sha1_in_certificate_chain = none) ∧
    (res.verified_certificate_chain ≠ [] →
      ∃ b, res.has_sha1_in_certificate_chain = some b ∧
        (b = true ↔ ∃ c ∈ res.verified_certificate_chain.dropLast,
          strContains c.signatureAlgorithm "sha1" = true)) := by
  obtain ⟨r, ob, leaf, rest, -, -, hres⟩ := mk_ok_inv _ _ _ _ _ _ hok
  subst hres
  rw [resultRecord_verified, resultRecord_sha1]
  generalize verifiedChainOf env (leaf :: rest) prl = v
  cases v with
  | nil => simp
  | cons x xs =>
    constructor
    · intro h
      simp at h
    · intro _
      refine ⟨(x :: xs).dropLast.any (fun cert => strContains cert.signatureAlgorithm "sha1"),
        by simp, ?_⟩
      simp [List.any_eq_true]

/-- C5 witness: instantiated at a completed scan whose verified chain is
leafC, interC, rootC with SHA-1 only on the anchor rootC. -/
theorem sha1_flag_excludes_anchor_witness :
    (res5.verified_certificate_chain = [] → res5.has_sha1_in_certificate_chain = none) ∧
    (res5.verified_certificate_chain ≠ [] →
      ∃ b, res5.has_sha1_in_certificate_chain = some b ∧
        (b = true ↔ ∃ c ∈ res5.verified_certificate_chain.dropLast,
          strContains c.signatureAlgorithm "sha1" = true)) :=
  sha1_flag_excludes_anchor env1 [leafC, interC] prlOk [] (some ocspR) res5 rfl

/-- C6: for every scan result construction that completes, the anchor-included
flag is null when the verified chain is empty, and otherwise is true exactly
when the last (anchor) certificate of the verified chain is present, by
identity, in the received certificate chain. -/
theorem anchor_flag_spec
    (env : Env) (chain : List Certificate) (prl : List PathValidationResult)
    (pel : List PathValidationError) (ocsp : Option OcspResponse)
    (res : CertificateInfoResult)
    (hok : mkCertificateInfoResult env chain prl pel ocsp = Except.ok res) :
    (res.verified_certificate_chain = [] → res.has_anchor_in_certificate_chain = none) ∧
    (∀ a, res.verified_certificate_chain.getLast? = some a →
      ∃ b, res.has_anchor_in_certificate_chain = some b ∧
        (b = true ↔ a ∈ res.certificate_chain)) := by
  obtain ⟨r, ob, leaf, rest, -, -, hres⟩ := mk_ok_inv _ _ _ _ _ _ hok
  subst hres
  rw [resultRecord_verified, resultRecord_anchor, resultRecord_chain]
  constructor
  · intro h
    rw [h]
    rfl
  · intro a ha
    rw [ha]
    exact ⟨_, rfl, by simp⟩

/-- C6 witness: instantiated at a completed scan whose received chain includes
the anchor rootC. -/
theorem anchor_flag_spec_witness :
    (res6.verified_certificate_chain = [] → res6.has_anchor_in_certificate_chain = none) ∧
    (∀ a, res6.verified_certificate_chain.getLast? = some a →
      ∃ b, res6.has_anchor_in_certificate_chain = some b ∧
        (b = true ↔ a ∈ res6.certificate_chain)) :=
  anchor_flag_spec env1 [leafC, interC, rootC] prlOk [] (some ocspR) res6 rfl

/-- C3 counterexample: the server presents the swapped chain interC, leafC
against anchors containing rootC, the primary verdict is ok, and the
spec-modelled builder signals the order fault; the constructed result then has
order-valid false but an EMPTY verified chain and null anchor-included and
SHA-1 flags, contradicting the claim that the verified chain stays non-empty
and the flags non-null. -/
theorem order_fault_cex :
    spec_build_verified_certificate_chain [rootC] [interC, leafC] =
      ChainBuildOutcome.invalidOrder ∧
    mkCertificateInfoResult envSpec [interC, leafC] prlOk [] (some ocspR) =
      Except.ok res3 ∧
    res3.is_certificate_chain_order_valid = false ∧
    res3.verified_certificate_chain = [] ∧
    res3.has_anchor_in_certificate_chain = none ∧
    res3.has_sha1_in_certificate_chain = none :=
  ⟨rfl, rfl, rfl, rfl, rfl, rfl⟩

/-- C3 (amended): for every scan result construction that completes after the
chain builder signalled the order fault, with the primary store verdict
trusted, the result has chain-order-valid false while the verified chain is
empty and the anchor-included and SHA-1 flags are null (the builder signals
the fault instead of returning a chain, so nothing survives to the verified
chain). -/
theorem order_fault_flags
    (env : Env) (chain : List Certificate) (prl : List PathValidationResult)
    (pel : List PathValidationError) (ocsp : Option OcspResponse)
    (res : CertificateInfoResult)
    (hok : mkCertificateInfoResult env chain prl pel ocsp = Except.ok res)
    (horder : env.build_verified_certificate_chain chain = ChainBuildOutcome.invalidOrder)
    (htrusted : isChainTrustedByMainStore env.main_trust_store prl = true) :
    res.is_certificate_chain_order_valid = false ∧
    res.verified_certificate_chain = [] ∧
    res.has_anchor_in_certificate_chain = none ∧
    res.has_sha1_in_certificate_chain = none := by
  obtain ⟨r, ob, leaf, rest, -, hchain, hres⟩ := mk_ok_inv _ _ _ _ _ _ hok
  subst hchain
  subst hres
  rw [resultRecord_verified, resultRecord_order, resultRecord_anchor, resultRecord_sha1]
  simp [verifiedChainOf, horder, htrusted]

/-- C3 (amended) witness: instantiated at the swapped-order scan. -/
theorem order_fault_flags_witness :
    res3.is_certificate_chain_order_valid = false ∧
    res3.verified_certificate_chain = [] ∧
    res3.has_anchor_in_certificate_chain = none ∧
    res3.has_sha1_in_certificate_chain = none :=
  order_fault_flags envSpec [interC, leafC] prlOk [] (some ocspR) res3 rfl
    (by decide) (by decide)

/-- C2: code bug.  Lines 216-219 of the source were meant to yield a null OCSP
verdict when no staple was captured and to fold trust-verification errors into
a not-trusted verdict (the stray try/except in as_text lines 356-365 wraps an
expression that cannot raise).  Instead, the statement of line 218
(print ocsp_response.verify(main_trust_store.path)) dereferences a missing
staple, so construction raises AttributeError, and an OpenSSLError of the
certificate-verify-error kind raised by verify propagates out of __init__
instead of being recovered. -/
theorem ocsp_handling_crashes :
    mkCertificateInfoResult envSpec [leafC, interC] prlOk [] none =
      Except.error PyErr.attributeError ∧
    mkCertificateInfoResult env2vfail [leafC, interC] prlOk [] (some ocspR) =
      Except.error (PyErr.openSSLError { msg := "certificate verify error" }) :=
  ⟨rfl, rfl⟩

/-- C4: code bug.  The total-failure half holds: when every per-store handshake
fails, process_task raises the RuntimeError carrying the most recent error
description (first conjunct).  But when at least one handshake succeeds while
the server sent no OCSP staple, the scan does not complete normally: the
result construction crashes with AttributeError through the unguarded
debug-print of line 218 (second conjunct). -/
theorem process_task_total_failure_and_crash :
    process_task envSpec [storeA, storeB] handshakeAllFail =
      Except.error (ScanError.runtimeError
        "Could not connect to the server; last error: connection reset by peer") ∧
    process_task envSpec [storeA, storeB] handshakeOneSuccessNoStaple =
      Except.error (ScanError.initError PyErr.attributeError) :=
  ⟨rfl, rfl⟩

/-- C7 counterexample: a supplementary store that is not the primary one but
whose name contains the word Mozilla; with an EV leaf, the machine-readable
pathValidation element built for it by as_xml carries the
isExtendedValidationCertificate marker, contradicting the claim that a
supplementary store entry never carries the EV marker. -/
theorem ev_marker_on_supplementary_store_cex :
    mozClone ≠ mozMain ∧
    (xmlPathValidationAttrs true
      (PathValidationResult.make mozClone "ok")).isExtendedValidationCertificate =
      some "True" :=
  ⟨by decide, rfl⟩

/-- C7 (amended): in the human-readable report a non-primary store entry never
carries the EV suffix (its text is independent of the EV flag), while in the
machine-readable report the EV marker is attributed to exactly the entries of
stores whose NAME contains the substring Mozilla — which can include a
supplementary store so named. -/
theorem ev_attribution_text_primary_xml_by_name
    (is_leaf_certificate_ev : Bool) (main_trust_store : TrustStore)
    (path_result : PathValidationResult)
    (hsupp : main_trust_store ≠ path_result.trust_store) :
    pathEntryText is_leaf_certificate_ev main_trust_store path_result =
      pathEntryText false main_trust_store path_result ∧
    ((xmlPathValidationAttrs is_leaf_certificate_ev
        path_result).isExtendedValidationCertificate.isSome = true ↔
      (strContains path_result.trust_store.name "Mozilla" = true ∧
        is_leaf_certificate_ev = true)) := by
  constructor
  · unfold pathEntryText
    by_cases ht : path_result.is_certificate_trusted = true <;> simp [ht, hsupp]
  · unfold xmlPathValidationAttrs
    by_cases hm : strContains path_result.trust_store.name "Mozilla" = true <;>
      by_cases he : is_leaf_certificate_ev = true <;>
        simp [hm, he]

/-- C7 (amended) witness: instantiated at a supplementary store without
Mozilla in its name and an EV leaf. -/
theorem ev_attribution_text_primary_xml_by_name_witness :
    pathEntryText true mozMain (PathValidationResult.make storeA "ok") =
      pathEntryText false mozMain (PathValidationResult.make storeA "ok") ∧
    ((xmlPathValidationAttrs true
        (PathValidationResult.make storeA "ok")).isExtendedValidationCertificate.isSome = true ↔
      (strContains (PathValidationResult.make storeA "ok").trust_store.name "Mozilla" = true ∧
        (true : Bool) = true)) :=
  ev_attribution_text_primary_xml_by_name true mozMain
    (PathValidationResult.make storeA "ok") (by decide)

/-- C9: for every connection, the per-store handshake task leaves the
connection closed whatever the exit path (success, client-certificate
interruption, or another error), and a client-certificate-requested signal is
not a failure: the task still returns the peer chain, the verify string and
the OCSP staple, exactly as on the plain success path. -/
theorem connection_closed_and_ccr_not_failure (conn : SslConnection) :
    (get_and_verify_certificate_chain conn).2.is_open = false ∧
    (get_and_verify_certificate_chain
        { conn with connectEvent := ConnectEvent.clientCertificateRequested }).1 =
      Except.ok (conn.peer_cert_chain, conn.verify_result, conn.ocsp_resp) ∧
    (get_and_verify_certificate_chain
        { conn with connectEvent := ConnectEvent.connected }).1 =
      Except.ok (conn.peer_cert_chain, conn.verify_result, conn.ocsp_resp) :=
  ⟨rfl, rfl, rfl⟩
